import Mathlib

/-!
Verification of the Lumina IoT device-registry core.

This file gives a shallow embedding of the state-synchronization core of
the Lumina IoT repository: the in-memory device registry (the module-level
`devices` dict in `api/src/mqtt.py`), the durable store (the `Device` and
`DeviceState` tables of `api/src/db.py`), the MQTT bridge handlers
(`MQTTClient._handle_device_announce`, `MQTTClient._handle_state_update`,
`MQTTClient.load_devices_from_db`, `MQTTClient.send_command`) and the
command service layer (`api/src/services.py`, mirrored by the JSON API
endpoints of `api/src/main.py`).

Modelling conventions:
- Python dicts with a fixed identifier key become Lean lists of records,
  looked up by `List.find?` on the identifier field; dict assignment
  (`devices[id] = v`) becomes replace-first-or-append, in-place mutation of
  one entry (`devices[id]["f"] = v`) becomes update-first.
- JSON payloads with optional keys become records of `Option` fields.
- The in-memory device dict can lack the `friendly_name` key (announce
  path) and its `color` value is whatever object the last state report
  carried, so `RuntimeDevice.friendly_name : Option (Option String)`
  (outer layer: key present; inner: SQL NULL vs a string) and the runtime
  color is a record of three optional channels.
- `datetime` values become `Int` seconds; `datetime.utcnow()` is an
  explicit `now` parameter threaded through each operation.
- MQTT publishes are recorded in an append-only `published` log.
- `raise HTTPException(...)` becomes `Except HTTPError`.
-/

namespace Lumina

/-- A runtime color object as carried by a state-report payload: any subset
of the three channels may be present (`payload["color"]` is stored
wholesale into the in-memory dict). -/
structure RColor where
  r : Option Int
  g : Option Int
  b : Option Int
  deriving Repr, DecidableEq

/-- The fully-populated white color object `{"r":255,"g":255,"b":255}`. -/
def RColor.white : RColor := ⟨some 255, some 255, some 255⟩

/-- One entry of the in-memory `devices` dict of `mqtt.py`. -/
structure RuntimeDevice where
  device_id : String
  /-- Outer `none`: the `friendly_name` key is absent from the dict
  (announce-created devices); `some none`: key present, value `None`. -/
  friendly_name : Option (Option String)
  online : Bool
  power : Bool
  brightness : Int
  color : RColor
  effect : String
  deriving Repr, DecidableEq

/-- A row of the durable `devices` table (`db.py`, class `Device`).
The surrogate integer primary key is omitted; `device_id` is the unique
lookup key used by every query in the source. -/
structure DeviceRow where
  device_id : String
  friendly_name : Option String
  device_type : String
  last_seen : Option Int
  created_at : Int
  deriving Repr, DecidableEq

/-- A row of the durable `device_state` table (`db.py`, class
`DeviceState`); `updated_at` is database-managed and omitted. -/
structure StateRow where
  device_id : String
  brightness : Int
  color_r : Int
  color_g : Int
  color_b : Int
  effect : String
  deriving Repr, DecidableEq

/-- A command payload published to `lights/{id}/set`
(`MQTTClient.send_command` callers). -/
inductive Command where
  | color (r g b : Int)
  | brightness (v : Int)
  | effect (name : String)
  | power (isOn : Bool)
  deriving Repr, DecidableEq

/-- The whole mutable state the core touches: in-memory registry, the two
durable tables, and the log of published commands. -/
structure SysState where
  mem : List RuntimeDevice
  storeDevices : List DeviceRow
  storeStates : List StateRow
  published : List (String × Command)
  deriving Repr, DecidableEq

/-- The empty startup state. -/
def SysState.empty : SysState := ⟨[], [], [], []⟩

/-- Error raised by the service layer (`fastapi.HTTPException`). -/
structure HTTPError where
  status : Nat
  detail : String
  deriving Repr, DecidableEq

/-- The 404 raised on an unknown device id. -/
def notFound : HTTPError := ⟨404, "Device not found"⟩

/- Generic keyed-list helpers shared by the dict and table models. -/

/-- Update the first element satisfying `p` (SQLAlchemy
`query(...).first()` followed by attribute mutation, or in-place mutation
of one dict entry). No-op when no element matches (the source guards with
`if device:` / `if state:`, and a missing dict key cannot be updated). -/
def updateFirst (p : α → Bool) (f : α → α) : List α → List α
  | [] => []
  | a :: l => if p a then f a :: l else a :: updateFirst p f l

/-- Lookup in the in-memory dict: `devices.get(id)` / `id in devices`. -/
def memGet (m : List RuntimeDevice) (id : String) : Option RuntimeDevice :=
  m.find? (fun d => d.device_id == id)

/-- Dict assignment `devices[id] = v`: replace the entry with the same key
or append a new one. -/
def memSet (v : RuntimeDevice) : List RuntimeDevice → List RuntimeDevice
  | [] => [v]
  | d :: m => if d.device_id == v.device_id then v :: m else d :: memSet v m

/-- In-place mutation of one dict entry, `devices[id]["f"] = ...`. -/
def memUpdate (m : List RuntimeDevice) (id : String)
    (f : RuntimeDevice → RuntimeDevice) : List RuntimeDevice :=
  updateFirst (fun d => d.device_id == id) f m

/-- `db.query(Device).filter(Device.device_id == id).first()`. -/
def findDevice (l : List DeviceRow) (id : String) : Option DeviceRow :=
  l.find? (fun r => r.device_id == id)

/-- `db.query(DeviceState).filter(DeviceState.device_id == id).first()`. -/
def findState (l : List StateRow) (id : String) : Option StateRow :=
  l.find? (fun r => r.device_id == id)

/-- Mutate the first matching `Device` row, as the ORM session does. -/
def updateDeviceRow (l : List DeviceRow) (id : String)
    (f : DeviceRow → DeviceRow) : List DeviceRow :=
  updateFirst (fun r => r.device_id == id) f l

/-- Mutate the first matching `DeviceState` row. -/
def updateStateRow (l : List StateRow) (id : String)
    (f : StateRow → StateRow) : List StateRow :=
  updateFirst (fun r => r.device_id == id) f l

/- The MQTT bridge handlers (`api/src/mqtt.py`). -/

/-- JSON payload of a `devices/announce` message: `{device_id, type?}`. -/
structure AnnouncePayload where
  device_id : Option String
  type : Option String
  deriving Repr, DecidableEq

/-- JSON payload of a `lights/{id}/state` message: any subset of the
fields; `color` is itself an object with optional channels. -/
structure ReportPayload where
  device_id : Option String
  power : Option Bool
  brightness : Option Int
  color : Option RColor
  effect : Option String
  deriving Repr, DecidableEq

/-- The in-memory half of `_handle_device_announce` (mqtt.py lines 68-79,
executed first): unknown id gets a fresh dict with the default state and
no `friendly_name` key; a known id is only marked online. -/
def announceMem (id : String) (m : List RuntimeDevice) : List RuntimeDevice :=
  match memGet m id with
  | none => memSet
      { device_id := id, friendly_name := none, online := true,
        power := true, brightness := 100, color := RColor.white,
        effect := "none" } m
  | some _ => memUpdate m id (fun d => { d with online := true })

/-- The durable half of `_handle_device_announce` (mqtt.py lines 81-104,
executed second): insert a `Device` row plus a default `DeviceState` row
when the id is new, else refresh `last_seen`. -/
def announceStore (now : Int) (p : AnnouncePayload) (id : String)
    (s : SysState) : SysState :=
  match findDevice s.storeDevices id with
  | none =>
      { s with
        storeDevices := s.storeDevices ++
          [{ device_id := id, friendly_name := none,
             device_type := p.type.getD "led_strip",
             last_seen := some now, created_at := now }],
        storeStates := s.storeStates ++
          [{ device_id := id, brightness := 100, color_r := 255,
             color_g := 255, color_b := 255, effect := "none" }] }
  | some _ =>
      { s with storeDevices :=
          (updateDeviceRow s.storeDevices id
            (fun r => { r with last_seen := some now })) }

/-- `MQTTClient._handle_device_announce`: guard on a missing or empty
(falsy) `device_id`, then the in-memory update followed by the durable
write, in source order. -/
def handleAnnounce (now : Int) (p : AnnouncePayload) (s : SysState) :
    SysState :=
  match p.device_id with
  | none => s
  | some id =>
      if id = "" then s
      else announceStore now p id { s with mem := announceMem id s.mem }

/-- The in-memory part of `_handle_state_update` (mqtt.py lines 114-125):
mark online, then copy each present payload field; the `color` object is
assigned wholesale. -/
def reportMem (p : ReportPayload) (d : RuntimeDevice) : RuntimeDevice :=
  let d := { d with online := true }
  let d := match p.power with | none => d | some v => { d with power := v }
  let d := match p.brightness with
           | none => d | some v => { d with brightness := v }
  let d := match p.color with | none => d | some c => { d with color := c }
  match p.effect with | none => d | some v => { d with effect := v }

/-- The durable part of `_handle_state_update` on the `DeviceState` row
(mqtt.py lines 135-144): per-field, and for color per-channel, merge with
the prior row values. -/
def reportStateRow (p : ReportPayload) (st : StateRow) : StateRow :=
  let st := match p.brightness with
            | none => st | some v => { st with brightness := v }
  let st := match p.color with
            | none => st
            | some c =>
                { st with color_r := c.r.getD st.color_r,
                          color_g := c.g.getD st.color_g,
                          color_b := c.b.getD st.color_b }
  match p.effect with | none => st | some v => { st with effect := v }

/-- `MQTTClient._handle_state_update`: discard when `device_id` is missing,
falsy, or unknown to the registry; otherwise update the in-memory entry,
refresh the `Device` row's `last_seen`, and merge into the `DeviceState`
row. -/
def handleStateUpdate (now : Int) (p : ReportPayload) (s : SysState) :
    SysState :=
  match p.device_id with
  | none => s
  | some id =>
      if id = "" then s
      else match memGet s.mem id with
      | none => s
      | some _ =>
          { s with
            mem := memUpdate s.mem id (reportMem p),
            storeDevices := updateDeviceRow s.storeDevices id
              (fun r => { r with last_seen := some now }),
            storeStates := updateStateRow s.storeStates id
              (reportStateRow p) }

/-- The dict built for one persisted device by `load_devices_from_db`
(mqtt.py lines 184-196): `online` from `last_seen` recency against a
300-second threshold, `power` assumed true, state fields from the
`DeviceState` row with column defaults as fallback, and a present
`friendly_name` key. -/
def mkLoaded (now : Int) (row : DeviceRow) (st : Option StateRow) :
    RuntimeDevice :=
  { device_id := row.device_id,
    friendly_name := some row.friendly_name,
    online := match row.last_seen with
              | none => false
              | some t => decide (now - t < 300),
    power := true,
    brightness := match st with | none => 100 | some st => st.brightness,
    color := { r := some (match st with | none => 255 | some st => st.color_r),
               g := some (match st with | none => 255 | some st => st.color_g),
               b := some (match st with | none => 255 | some st => st.color_b) },
    effect := match st with | none => "none" | some st => st.effect }

/-- `MQTTClient.load_devices_from_db`: iterate over every `Device` row and
assign the rebuilt dict into the registry. -/
def load_devices_from_db (now : Int) (rows : List DeviceRow)
    (states : List StateRow) (mem : List RuntimeDevice) :
    List RuntimeDevice :=
  rows.foldl (fun m row =>
    memSet (mkLoaded now row (findState states row.device_id)) m) mem

/-- `MQTTClient.send_command`: publish the payload to `lights/{id}/set`
(recorded in the append-only log). -/
def send_command (s : SysState) (id : String) (c : Command) : SysState :=
  { s with published := s.published ++ [(id, c)] }

/- The command service layer (`api/src/services.py`). -/

/-- `services.get_device`: the device dict or a 404. -/
def get_device (s : SysState) (id : String) : Except HTTPError RuntimeDevice :=
  match memGet s.mem id with
  | none => .error notFound
  | some d => .ok d

/-- `services.get_all_devices` / `api_list_devices`:
`list(devices.values())`. -/
def get_all_devices (s : SysState) : List RuntimeDevice := s.mem

/-- `main.api_get_device` (the JSON API variant, same logic as
`services.get_device`). -/
def api_get_device (s : SysState) (id : String) :
    Except HTTPError RuntimeDevice :=
  match memGet s.mem id with
  | none => .error notFound
  | some d => .ok d

/-- `services.set_color`: 404 on unknown id before any side effect, else
publish the color command and optimistically overwrite the in-memory
color with a fully-populated object. -/
def set_color (s : SysState) (id : String) (r g b : Int) :
    Except HTTPError RuntimeDevice × SysState :=
  match get_device s id with
  | .error e => (.error e, s)
  | .ok d =>
      let s := send_command s id (.color r g b)
      let d := { d with color := ⟨some r, some g, some b⟩ }
      (.ok d, { s with mem := (memUpdate s.mem id
                  (fun d => { d with color := ⟨some r, some g, some b⟩ })) })

/-- `services.set_brightness`: same publish-then-optimistic-apply shape. -/
def set_brightness (s : SysState) (id : String) (v : Int) :
    Except HTTPError RuntimeDevice × SysState :=
  match get_device s id with
  | .error e => (.error e, s)
  | .ok d =>
      let s := send_command s id (.brightness v)
      (.ok { d with brightness := v },
       { s with mem := memUpdate s.mem id
                  (fun d => { d with brightness := v }) })

/-- `services.set_effect`. -/
def set_effect (s : SysState) (id : String) (e : String) :
    Except HTTPError RuntimeDevice × SysState :=
  match get_device s id with
  | .error err => (.error err, s)
  | .ok d =>
      let s := send_command s id (.effect e)
      (.ok { d with effect := e },
       { s with mem := memUpdate s.mem id (fun d => { d with effect := e }) })

/-- `services.set_power`. -/
def set_power (s : SysState) (id : String) (v : Bool) :
    Except HTTPError RuntimeDevice × SysState :=
  match get_device s id with
  | .error e => (.error e, s)
  | .ok d =>
      let s := send_command s id (.power v)
      (.ok { d with power := v },
       { s with mem := memUpdate s.mem id (fun d => { d with power := v }) })

/-- Whitespace test for the characters Python's `str.strip()` removes
(restricted to the ASCII whitespace the payloads can carry). -/
def isSpace (c : Char) : Bool :=
  c == ' ' || c == '\t' || c == '\n' || c == '\r'

/-- Python's `str.strip()`: drop whitespace from both ends. -/
def pyStrip (s : String) : String :=
  ⟨((s.data.dropWhile isSpace).reverse.dropWhile isSpace).reverse⟩

/-- `services.set_name`: 404 on unknown id; `friendly_name.strip() or
None`; write the cleaned name to the `Device` row (guarded on the row
existing), then set the in-memory key. No command is published. -/
def set_name (s : SysState) (id : String) (name : String) :
    Except HTTPError RuntimeDevice × SysState :=
  match get_device s id with
  | .error e => (.error e, s)
  | .ok d =>
      let clean : Option String :=
        if pyStrip name = "" then none else some (pyStrip name)
      let sd := updateDeviceRow s.storeDevices id
        (fun r => { r with friendly_name := clean })
      (.ok { d with friendly_name := some clean },
       { s with storeDevices := sd,
                mem := memUpdate s.mem id
                  (fun d => { d with friendly_name := some clean }) })

/-- A concrete persisted device row used by witnesses: last seen at time 0. -/
def demoRow : DeviceRow := ⟨"d1", none, "led_strip", some 0, 0⟩

/-- The matching concrete persisted state row. -/
def demoState : StateRow := ⟨"d1", 70, 1, 2, 3, "glow"⟩

/-- A concrete reachable system state: the store holds `demoRow` and
`demoState`, and the registry is what `load_devices_from_db` builds from
that store at time 600 (so `"d1"` loads as offline: last seen 10 minutes
ago). -/
def demoSys : SysState :=
  { mem := load_devices_from_db 600 [demoRow] [demoState] [],
    storeDevices := [demoRow],
    storeStates := [demoState],
    published := [] }

/-- The write-through invariant: every id present in the in-memory
registry has a corresponding `Device` row in the durable store. -/
def StoreBacked (s : SysState) : Prop :=
  ∀ id, (memGet s.mem id).isSome → (findDevice s.storeDevices id).isSome

/- Lemmas about the keyed-list primitives. -/

theorem find?_updateFirst_self (key : α → String) (f : α → α)
    (hf : ∀ a, key (f a) = key a) (i : String) (l : List α) :
    (updateFirst (fun a => key a == i) f l).find? (fun a => key a == i)
      = (l.find? (fun a => key a == i)).map f := by
  induction l with
  | nil => rfl
  | cons a l ih =>
      by_cases h : key a = i
      · rw [updateFirst, if_pos (by simp [h]),
            List.find?_cons_of_pos _ (by simp [hf, h]),
            List.find?_cons_of_pos _ (by simp [h]), Option.map]
      · rw [updateFirst, if_neg (by simp [h]),
            List.find?_cons_of_neg _ (by simp [h]),
            List.find?_cons_of_neg _ (by simp [h]), ih]

theorem find?_updateFirst_ne (key : α → String) (f : α → α)
    (hf : ∀ a, key (f a) = key a) (i j : String) (hij : i ≠ j) (l : List α) :
    (updateFirst (fun a => key a == i) f l).find? (fun a => key a == j)
      = l.find? (fun a => key a == j) := by
  induction l with
  | nil => rfl
  | cons a l ih =>
      by_cases h : key a = i
      · have hj : key a ≠ j := fun e => hij (h ▸ e)
        rw [updateFirst, if_pos (by simp [h]),
            List.find?_cons_of_neg _ (by simp [hf, hj]),
            List.find?_cons_of_neg _ (by simp [hj])]
      · rw [updateFirst, if_neg (by simp [h])]
        by_cases hj : key a = j
        · rw [List.find?_cons_of_pos _ (by simp [hj]),
              List.find?_cons_of_pos _ (by simp [hj])]
        · rw [List.find?_cons_of_neg _ (by simp [hj]),
              List.find?_cons_of_neg _ (by simp [hj]), ih]

theorem mem_updateFirst (p : α → Bool) (f : α → α) (l : List α) (a : α)
    (h : a ∈ updateFirst p f l) : a ∈ l ∨ ∃ b ∈ l, a = f b := by
  induction l with
  | nil => simp [updateFirst] at h
  | cons b l ih =>
      rw [updateFirst] at h
      by_cases hp : p b
      · rw [if_pos hp, List.mem_cons] at h
        rcases h with h | h
        · exact .inr ⟨b, List.mem_cons_self .., h⟩
        · exact .inl (List.mem_cons_of_mem _ h)
      · rw [if_neg hp, List.mem_cons] at h
        rcases h with h | h
        · exact .inl (h ▸ List.mem_cons_self ..)
        · rcases ih h with h | ⟨c, hc, hac⟩
          · exact .inl (List.mem_cons_of_mem _ h)
          · exact .inr ⟨c, List.mem_cons_of_mem _ hc, hac⟩

theorem memGet_memSet_self (v : RuntimeDevice) (m : List RuntimeDevice) :
    memGet (memSet v m) v.device_id = some v := by
  induction m with
  | nil => simp [memSet, memGet]
  | cons d m ih =>
      by_cases h : d.device_id = v.device_id
      · rw [memSet, if_pos (by simp [h]), memGet,
            List.find?_cons_of_pos _ (by simp)]
      · rw [memSet, if_neg (by simp [h]), memGet,
            List.find?_cons_of_neg _ (by simp [h])]
        exact ih

theorem memGet_memSet_ne (v : RuntimeDevice) (m : List RuntimeDevice)
    (j : String) (h : v.device_id ≠ j) :
    memGet (memSet v m) j = memGet m j := by
  induction m with
  | nil => simp [memSet, memGet, h]
  | cons d m ih =>
      by_cases hd : d.device_id = v.device_id
      · have hdj : d.device_id ≠ j := hd ▸ h
        rw [memSet, if_pos (by simp [hd]), memGet,
            List.find?_cons_of_neg _ (by simp [h]), memGet,
            List.find?_cons_of_neg _ (by simp [hdj])]
      · rw [memSet, if_neg (by simp [hd])]
        by_cases hj : d.device_id = j
        · rw [memGet, List.find?_cons_of_pos _ (by simp [hj]), memGet,
              List.find?_cons_of_pos _ (by simp [hj])]
        · rw [memGet, List.find?_cons_of_neg _ (by simp [hj]), memGet,
              List.find?_cons_of_neg _ (by simp [hj])]
          exact ih

theorem mem_memSet (v : RuntimeDevice) (m : List RuntimeDevice)
    (a : RuntimeDevice) (h : a ∈ memSet v m) : a = v ∨ a ∈ m := by
  induction m with
  | nil => simpa [memSet] using h
  | cons d m ih =>
      rw [memSet] at h
      by_cases hd : d.device_id = v.device_id
      · rw [if_pos (by simp [hd]), List.mem_cons] at h
        rcases h with h | h
        · exact .inl h
        · exact .inr (List.mem_cons_of_mem _ h)
      · rw [if_neg (by simp [hd]), List.mem_cons] at h
        rcases h with h | h
        · exact .inr (h ▸ List.mem_cons_self ..)
        · rcases ih h with h | h
          · exact .inl h
          · exact .inr (List.mem_cons_of_mem _ h)

theorem memGet_memUpdate_self (m : List RuntimeDevice) (i : String)
    (f : RuntimeDevice → RuntimeDevice)
    (hf : ∀ d, (f d).device_id = d.device_id) :
    memGet (memUpdate m i f) i = (memGet m i).map f := by
  unfold memGet memUpdate
  exact find?_updateFirst_self (fun d => d.device_id) f hf i m

theorem memGet_memUpdate_ne (m : List RuntimeDevice) (i j : String)
    (f : RuntimeDevice → RuntimeDevice)
    (hf : ∀ d, (f d).device_id = d.device_id) (hij : i ≠ j) :
    memGet (memUpdate m i f) j = memGet m j := by
  unfold memGet memUpdate
  exact find?_updateFirst_ne (fun d => d.device_id) f hf i j hij m

theorem findDevice_updateDeviceRow_self (l : List DeviceRow) (i : String)
    (f : DeviceRow → DeviceRow) (hf : ∀ r, (f r).device_id = r.device_id) :
    findDevice (updateDeviceRow l i f) i = (findDevice l i).map f := by
  unfold findDevice updateDeviceRow
  exact find?_updateFirst_self (fun r => r.device_id) f hf i l

theorem findDevice_updateDeviceRow_ne (l : List DeviceRow) (i j : String)
    (f : DeviceRow → DeviceRow) (hf : ∀ r, (f r).device_id = r.device_id)
    (hij : i ≠ j) :
    findDevice (updateDeviceRow l i f) j = findDevice l j := by
  unfold findDevice updateDeviceRow
  exact find?_updateFirst_ne (fun r => r.device_id) f hf i j hij l

theorem findState_updateStateRow_self (l : List StateRow) (i : String)
    (f : StateRow → StateRow) (hf : ∀ r, (f r).device_id = r.device_id) :
    findState (updateStateRow l i f) i = (findState l i).map f := by
  unfold findState updateStateRow
  exact find?_updateFirst_self (fun r => r.device_id) f hf i l

theorem findState_updateStateRow_ne (l : List StateRow) (i j : String)
    (f : StateRow → StateRow) (hf : ∀ r, (f r).device_id = r.device_id)
    (hij : i ≠ j) :
    findState (updateStateRow l i f) j = findState l j := by
  unfold findState updateStateRow
  exact find?_updateFirst_ne (fun r => r.device_id) f hf i j hij l

theorem device_id_mkLoaded (now : Int) (row : DeviceRow)
    (st : Option StateRow) : (mkLoaded now row st).device_id = row.device_id :=
  rfl

theorem load_cons (now : Int) (a : DeviceRow) (rows : List DeviceRow)
    (states : List StateRow) (m : List RuntimeDevice) :
    load_devices_from_db now (a :: rows) states m
      = load_devices_from_db now rows states
          (memSet (mkLoaded now a (findState states a.device_id)) m) := rfl

theorem memGet_load_of_not_mem (now : Int) (rows : List DeviceRow)
    (states : List StateRow) (m : List RuntimeDevice) (j : String)
    (h : ∀ r ∈ rows, r.device_id ≠ j) :
    memGet (load_devices_from_db now rows states m) j = memGet m j := by
  induction rows generalizing m with
  | nil => rfl
  | cons a rows ih =>
      rw [load_cons, ih _ (fun r hr => h r (List.mem_cons_of_mem _ hr)),
          memGet_memSet_ne _ _ _ (h a (List.mem_cons_self ..))]

theorem memGet_load_found (now : Int) (rows : List DeviceRow)
    (states : List StateRow) (m : List RuntimeDevice) (r : DeviceRow)
    (id : String) (hnd : (rows.map (fun x => x.device_id)).Nodup)
    (hr : r ∈ rows) (hid : r.device_id = id) :
    memGet (load_devices_from_db now rows states m) id
      = some (mkLoaded now r (findState states id)) := by
  induction rows generalizing m with
  | nil => simp at hr
  | cons a rows ih =>
      rw [List.map_cons, List.nodup_cons] at hnd
      rcases List.mem_cons.mp hr with rfl | hr'
      · rw [load_cons, memGet_load_of_not_mem _ _ _ _ _
              (fun x hx e => hnd.1 (by
                rw [hid, ← e]; exact List.mem_map_of_mem _ hx)), ← hid]
        exact memGet_memSet_self _ _
      · rw [load_cons]
        exact ih _ hnd.2 hr'

theorem mem_load (now : Int) (rows : List DeviceRow) (states : List StateRow)
    (m : List RuntimeDevice) (d : RuntimeDevice)
    (h : d ∈ load_devices_from_db now rows states m) :
    d ∈ m ∨ ∃ row ∈ rows, d = mkLoaded now row (findState states row.device_id) := by
  induction rows generalizing m with
  | nil => exact .inl h
  | cons a rows ih =>
      rw [load_cons] at h
      rcases ih _ h with h' | ⟨row, hrow, hd⟩
      · rcases mem_memSet _ _ _ h' with h'' | h''
        · exact .inr ⟨a, List.mem_cons_self .., h''⟩
        · exact .inl h''
      · exact .inr ⟨row, List.mem_cons_of_mem _ hrow, hd⟩

/- Lemmas about the handlers and the service layer. -/

theorem announceStore_mem (now : Int) (p : AnnouncePayload) (id : String)
    (s : SysState) : (announceStore now p id s).mem = s.mem := by
  unfold announceStore
  cases findDevice s.storeDevices id <;> rfl

theorem handleAnnounce_mem_unknown (now : Int) (p : AnnouncePayload)
    (s : SysState) (id : String) (hp : p.device_id = some id) (hid : id ≠ "")
    (hmem : memGet s.mem id = none) :
    (handleAnnounce now p s).mem
      = memSet ⟨id, none, true, true, 100, RColor.white, "none"⟩ s.mem := by
  unfold handleAnnounce
  rw [hp]
  simp only [if_neg hid, announceStore_mem, announceMem, hmem]

theorem reportMem_device_id (p : ReportPayload) (d : RuntimeDevice) :
    (reportMem p d).device_id = d.device_id := by
  unfold reportMem
  cases p.power <;> cases p.brightness <;> cases p.color <;>
    cases p.effect <;> rfl

theorem reportStateRow_device_id (p : ReportPayload) (st : StateRow) :
    (reportStateRow p st).device_id = st.device_id := by
  unfold reportStateRow
  cases p.brightness <;> cases p.color <;> cases p.effect <;> rfl

theorem handleStateUpdate_known (now : Int) (p : ReportPayload)
    (s : SysState) (id : String) (d : RuntimeDevice)
    (hp : p.device_id = some id) (hid : id ≠ "")
    (hmem : memGet s.mem id = some d) :
    handleStateUpdate now p s
      = { s with
          mem := memUpdate s.mem id (reportMem p),
          storeDevices := updateDeviceRow s.storeDevices id
            (fun r => { r with last_seen := some now }),
          storeStates := updateStateRow s.storeStates id
            (reportStateRow p) } := by
  unfold handleStateUpdate
  rw [hp]
  simp only [if_neg hid, hmem]

theorem get_device_unknown (s : SysState) (id : String)
    (h : memGet s.mem id = none) : get_device s id = .error notFound := by
  unfold get_device
  rw [h]

theorem get_device_known (s : SysState) (id : String) (d : RuntimeDevice)
    (h : memGet s.mem id = some d) : get_device s id = .ok d := by
  unfold get_device
  rw [h]

theorem map_key_updateFirst (key : α → String) (f : α → α)
    (hf : ∀ a, key (f a) = key a) (p : α → Bool) (l : List α) :
    (updateFirst p f l).map key = l.map key := by
  induction l with
  | nil => rfl
  | cons a l ih =>
      rw [updateFirst]
      by_cases h : p a
      · rw [if_pos h, List.map_cons, List.map_cons, hf]
      · rw [if_neg h, List.map_cons, List.map_cons, ih]

theorem findDevice_append_isSome (l l2 : List DeviceRow) (j : String)
    (h : (findDevice l j).isSome) : (findDevice (l ++ l2) j).isSome := by
  unfold findDevice at h ⊢
  simp [List.find?_append, h]

theorem findDevice_append_singleton_self (l : List DeviceRow) (r : DeviceRow) :
    (findDevice (l ++ [r]) r.device_id).isSome := by
  unfold findDevice
  rw [List.find?_append]
  cases hl : l.find? (fun x => x.device_id == r.device_id)
  · rw [List.find?_cons_of_pos _ (by simp)]; rfl
  · rfl

theorem isSome_memGet_memUpdate (m : List RuntimeDevice) (id : String)
    (f : RuntimeDevice → RuntimeDevice)
    (hf : ∀ x, (f x).device_id = x.device_id) (j : String) :
    (memGet (memUpdate m id f) j).isSome = (memGet m j).isSome := by
  by_cases hij : id = j
  · subst hij
    rw [memGet_memUpdate_self m id f hf]
    cases memGet m id <;> rfl
  · rw [memGet_memUpdate_ne m id j f hf hij]

theorem isSome_findDevice_updateDeviceRow (l : List DeviceRow) (id : String)
    (f : DeviceRow → DeviceRow) (hf : ∀ r, (f r).device_id = r.device_id)
    (j : String) :
    (findDevice (updateDeviceRow l id f) j).isSome
      = (findDevice l j).isSome := by
  by_cases hij : id = j
  · subst hij
    rw [findDevice_updateDeviceRow_self l id f hf]
    cases findDevice l id <;> rfl
  · rw [findDevice_updateDeviceRow_ne l id j f hf hij]

theorem announceMem_unknown (id : String) (m : List RuntimeDevice)
    (h : memGet m id = none) :
    announceMem id m
      = memSet ⟨id, none, true, true, 100, RColor.white, "none"⟩ m := by
  unfold announceMem
  rw [h]

theorem announceMem_known (id : String) (m : List RuntimeDevice)
    (d : RuntimeDevice) (h : memGet m id = some d) :
    announceMem id m = memUpdate m id (fun x => { x with online := true }) := by
  unfold announceMem
  rw [h]

theorem isSome_memGet_announceMem (m : List RuntimeDevice) (id j : String) :
    (memGet (announceMem id m) j).isSome = true
      ↔ (j = id ∨ (memGet m j).isSome = true) := by
  cases h : memGet m id with
  | none =>
      rw [announceMem_unknown id m h]
      by_cases hij : j = id
      · subst hij
        constructor
        · intro _; exact .inl rfl
        · intro _
          rw [show j
              = (⟨j, none, true, true, 100, RColor.white, "none"⟩ :
                  RuntimeDevice).device_id from rfl,
              memGet_memSet_self]
          rfl
      · rw [memGet_memSet_ne _ _ _ (fun e => hij e.symm)]
        simp [hij]
  | some d =>
      rw [announceMem_known id m d h]
      by_cases hij : j = id
      · subst hij
        rw [memGet_memUpdate_self m j (fun x => { x with online := true })
            (fun _ => rfl), h]
        simp
      · rw [memGet_memUpdate_ne m id j (fun x => { x with online := true })
            (fun _ => rfl) (fun e => hij e.symm)]
        simp [hij]

theorem announceStore_isSome_self (now : Int) (p : AnnouncePayload)
    (id : String) (s : SysState) :
    (findDevice (announceStore now p id s).storeDevices id).isSome := by
  unfold announceStore
  cases hfd : findDevice s.storeDevices id with
  | none =>
      show (findDevice (s.storeDevices ++
        [{ device_id := id, friendly_name := none,
           device_type := p.type.getD "led_strip",
           last_seen := some now, created_at := now }]) id).isSome
      exact findDevice_append_singleton_self _ _
  | some r =>
      show (findDevice (updateDeviceRow s.storeDevices id
        (fun r => { r with last_seen := some now })) id).isSome
      rw [findDevice_updateDeviceRow_self s.storeDevices id
          (fun r => { r with last_seen := some now }) (fun _ => rfl), hfd]
      rfl

theorem announceStore_isSome_other (now : Int) (p : AnnouncePayload)
    (id : String) (s : SysState) (j : String)
    (h : (findDevice s.storeDevices j).isSome) :
    (findDevice (announceStore now p id s).storeDevices j).isSome := by
  unfold announceStore
  cases hfd : findDevice s.storeDevices id with
  | none =>
      show (findDevice (s.storeDevices ++ _) j).isSome
      exact findDevice_append_isSome _ _ _ h
  | some r =>
      show (findDevice (updateDeviceRow s.storeDevices id
        (fun r => { r with last_seen := some now })) j).isSome
      rw [isSome_findDevice_updateDeviceRow s.storeDevices id
          (fun r => { r with last_seen := some now }) (fun _ => rfl)]
      exact h

theorem handleAnnounce_noneid (now : Int) (p : AnnouncePayload) (s : SysState)
    (hp : p.device_id = none) : handleAnnounce now p s = s := by
  unfold handleAnnounce
  rw [hp]

theorem handleAnnounce_emptyid (now : Int) (p : AnnouncePayload) (s : SysState)
    (id : String) (hp : p.device_id = some id) (hid : id = "") :
    handleAnnounce now p s = s := by
  unfold handleAnnounce
  rw [hp]
  simp [hid]

theorem handleAnnounce_eq (now : Int) (p : AnnouncePayload) (s : SysState)
    (id : String) (hp : p.device_id = some id) (hid : id ≠ "") :
    handleAnnounce now p s
      = announceStore now p id { s with mem := announceMem id s.mem } := by
  unfold handleAnnounce
  rw [hp]
  show (if id = "" then s
        else announceStore now p id { s with mem := announceMem id s.mem }) = _
  rw [if_neg hid]

theorem handleStateUpdate_noneid (now : Int) (p : ReportPayload) (s : SysState)
    (hp : p.device_id = none) : handleStateUpdate now p s = s := by
  unfold handleStateUpdate
  rw [hp]

theorem handleStateUpdate_emptyid (now : Int) (p : ReportPayload)
    (s : SysState) (id : String) (hp : p.device_id = some id) (hid : id = "") :
    handleStateUpdate now p s = s := by
  unfold handleStateUpdate
  rw [hp]
  simp [hid]

theorem handleStateUpdate_unknown (now : Int) (p : ReportPayload)
    (s : SysState) (id : String) (hp : p.device_id = some id) (hid : id ≠ "")
    (hm : memGet s.mem id = none) : handleStateUpdate now p s = s := by
  unfold handleStateUpdate
  rw [hp]
  simp only [if_neg hid, hm]

/- The claims. -/

/-- C2: for every device identifier not present in the registry, the read
operations (`get_device`, the HTTP GET endpoint `api_get_device`) and the
write operations (`set_color`, `set_brightness`, `set_effect`, `set_power`,
`set_name`) all fail with the distinct 404 `HTTPException` and leave the
registry, the durable store, and the bus untouched: each write returns the
input state unchanged, so no command is published and no field is
mutated. -/
theorem c2_unknown_id_not_found (s : SysState) (id : String)
    (r g b v : Int) (e n : String) (pw : Bool)
    (h : memGet s.mem id = none) :
    get_device s id = .error notFound ∧
    api_get_device s id = .error notFound ∧
    set_color s id r g b = (.error notFound, s) ∧
    set_brightness s id v = (.error notFound, s) ∧
    set_effect s id e = (.error notFound, s) ∧
    set_power s id pw = (.error notFound, s) ∧
    set_name s id n = (.error notFound, s) ∧
    notFound.status = 404 := by
  refine ⟨get_device_unknown s id h, ?_, ?_, ?_, ?_, ?_, ?_, rfl⟩ <;>
    simp [api_get_device, set_color, set_brightness, set_effect, set_power,
          set_name, get_device_unknown s id h, h]

/-- Witness for C2 at the empty state and a concrete unknown id. -/
theorem c2_unknown_id_not_found_witness :
    get_device SysState.empty "dx" = .error notFound ∧
    api_get_device SysState.empty "dx" = .error notFound ∧
    set_color SysState.empty "dx" 1 2 3 = (.error notFound, SysState.empty) ∧
    set_brightness SysState.empty "dx" 4 = (.error notFound, SysState.empty) ∧
    set_effect SysState.empty "dx" "fx" = (.error notFound, SysState.empty) ∧
    set_power SysState.empty "dx" true = (.error notFound, SysState.empty) ∧
    set_name SysState.empty "dx" "nm" = (.error notFound, SysState.empty) ∧
    notFound.status = 404 :=
  c2_unknown_id_not_found SysState.empty "dx" 1 2 3 4 "fx" "nm" true rfl

/-- C7: the command operations `set_color`, `set_brightness`, `set_effect`
and `set_power` leave both durable tables exactly as they were, on any
input; and `set_name` (the only command that writes) can change the
`Device` table. -/
theorem c7_commands_preserve_store :
    (∀ (s : SysState) (id : String) (r g b : Int),
      (set_color s id r g b).2.storeDevices = s.storeDevices ∧
      (set_color s id r g b).2.storeStates = s.storeStates) ∧
    (∀ (s : SysState) (id : String) (v : Int),
      (set_brightness s id v).2.storeDevices = s.storeDevices ∧
      (set_brightness s id v).2.storeStates = s.storeStates) ∧
    (∀ (s : SysState) (id e : String),
      (set_effect s id e).2.storeDevices = s.storeDevices ∧
      (set_effect s id e).2.storeStates = s.storeStates) ∧
    (∀ (s : SysState) (id : String) (pw : Bool),
      (set_power s id pw).2.storeDevices = s.storeDevices ∧
      (set_power s id pw).2.storeStates = s.storeStates) ∧
    (∃ (s : SysState) (id n : String),
      (set_name s id n).2.storeDevices ≠ s.storeDevices) := by
  refine ⟨?_, ?_, ?_, ?_, ⟨demoSys, "d1", "Lamp", by decide⟩⟩ <;>
    intros s id <;> intros <;>
    cases h : get_device s id <;>
    simp [set_color, set_brightness, set_effect, set_power, h, send_command]

/-- C8: on a device known to the registry, `set_color` followed by
`get_device` returns a device whose color is the fully-populated
`{r, g, b}` object, with no device-originated report in between: the
optimistic update is immediately visible to reads. -/
theorem c8_set_color_roundtrip (s : SysState) (id : String) (r g b : Int)
    (d : RuntimeDevice) (h : memGet s.mem id = some d) :
    ∃ s', set_color s id r g b
            = (.ok { d with color := ⟨some r, some g, some b⟩ }, s') ∧
          get_device s' id = .ok { d with color := ⟨some r, some g, some b⟩ } := by
  refine ⟨{ s with
      mem := memUpdate s.mem id
        (fun x => { x with color := ⟨some r, some g, some b⟩ }),
      published := s.published ++ [(id, Command.color r g b)] }, ?_, ?_⟩
  · simp only [set_color, get_device_known s id d h, send_command]
  · apply get_device_known
    show memGet (memUpdate s.mem id fun x =>
        { x with color := ⟨some r, some g, some b⟩ }) id = _
    rw [memGet_memUpdate_self s.mem id
        (fun x => { x with color := ⟨some r, some g, some b⟩ })
        (fun _ => rfl), h]
    rfl

/-- Witness for C8 on the loaded demo state. -/
theorem c8_set_color_roundtrip_witness :
    ∃ s', set_color demoSys "d1" 10 20 30
            = (.ok { device_id := "d1", friendly_name := some none,
                     online := false, power := true, brightness := 70,
                     color := ⟨some 10, some 20, some 30⟩,
                     effect := "glow" }, s') ∧
          get_device s' "d1"
            = .ok { device_id := "d1", friendly_name := some none,
                    online := false, power := true, brightness := 70,
                    color := ⟨some 10, some 20, some 30⟩,
                    effect := "glow" } :=
  c8_set_color_roundtrip demoSys "d1" 10 20 30
    ⟨"d1", some none, false, true, 70, ⟨some 1, some 2, some 3⟩, "glow"⟩
    (by rfl)

/-- C4: announcing a previously unknown id creates a runtime device with
the default state (brightness 100, color `(255,255,255)`, effect "none",
power true, online true), and a subsequent state report carrying only an
effect changes only the effect, leaving brightness and color at their
defaults. -/
theorem c4_announce_then_effect_report (now1 now2 : Int) (id : String)
    (ty : Option String) (e : String) (s : SysState)
    (hid : id ≠ "") (h : memGet s.mem id = none) :
    memGet (handleAnnounce now1 ⟨some id, ty⟩ s).mem id
      = some ⟨id, none, true, true, 100, RColor.white, "none"⟩ ∧
    memGet (handleStateUpdate now2 ⟨some id, none, none, none, some e⟩
        (handleAnnounce now1 ⟨some id, ty⟩ s)).mem id
      = some ⟨id, none, true, true, 100, RColor.white, e⟩ := by
  have h1 : (handleAnnounce now1 ⟨some id, ty⟩ s).mem
      = memSet ⟨id, none, true, true, 100, RColor.white, "none"⟩ s.mem :=
    handleAnnounce_mem_unknown now1 _ s id rfl hid h
  have h2 : memGet (handleAnnounce now1 ⟨some id, ty⟩ s).mem id
      = some ⟨id, none, true, true, 100, RColor.white, "none"⟩ := by
    rw [h1]
    exact memGet_memSet_self _ s.mem
  refine ⟨h2, ?_⟩
  rw [handleStateUpdate_known now2 _ _ id _ rfl hid h2]
  show memGet (memUpdate (handleAnnounce now1 ⟨some id, ty⟩ s).mem id
      (reportMem ⟨some id, none, none, none, some e⟩)) id = _
  rw [memGet_memUpdate_self _ id _ (reportMem_device_id _), h2]
  rfl

/-- Witness for C4: announce "d2", then report only `effect:"rainbow"`. -/
theorem c4_announce_then_effect_report_witness :
    memGet (handleAnnounce 0 ⟨some "d2", none⟩ SysState.empty).mem "d2"
      = some ⟨"d2", none, true, true, 100, RColor.white, "none"⟩ ∧
    memGet (handleStateUpdate 5 ⟨some "d2", none, none, none, some "rainbow"⟩
        (handleAnnounce 0 ⟨some "d2", none⟩ SysState.empty)).mem "d2"
      = some ⟨"d2", none, true, true, 100, RColor.white, "rainbow"⟩ :=
  c4_announce_then_effect_report 0 5 "d2" none "rainbow" SysState.empty
    (by decide) rfl

/-- C5: for every persisted device, `load_devices_from_db` computes the
runtime `online` flag as true exactly when `last_seen` is non-null and
less than 300 seconds before `now`, and every loaded device has
`power = true`. -/
theorem c5_load_online_recency (now : Int) (rows : List DeviceRow)
    (states : List StateRow) (r : DeviceRow) (id : String)
    (hnd : (rows.map (fun x => x.device_id)).Nodup)
    (hr : r ∈ rows) (hid : r.device_id = id) :
    ∃ d, memGet (load_devices_from_db now rows states []) id = some d ∧
      (d.online = true ↔ ∃ t, r.last_seen = some t ∧ now - t < 300) ∧
      d.power = true := by
  refine ⟨_, memGet_load_found now rows states [] r id hnd hr hid, ?_, rfl⟩
  cases hl : r.last_seen with
  | none => simp [mkLoaded, hl]
  | some t => simp [mkLoaded, hl]

/-- Witness for C5: a device last seen 600 seconds ago loads offline, one
last seen 60 seconds ago loads online, both with power on. -/
theorem c5_load_online_recency_witness :
    (∃ d, memGet (load_devices_from_db 600
        [⟨"X", none, "led_strip", some 0, 0⟩] [] []) "X" = some d ∧
      (d.online = true ↔
        ∃ t, (⟨"X", none, "led_strip", some 0, 0⟩ : DeviceRow).last_seen
              = some t ∧ 600 - t < 300) ∧
      d.power = true) ∧
    (∃ d, memGet (load_devices_from_db 60
        [⟨"X", none, "led_strip", some 0, 0⟩] [] []) "X" = some d ∧
      (d.online = true ↔
        ∃ t, (⟨"X", none, "led_strip", some 0, 0⟩ : DeviceRow).last_seen
              = some t ∧ 60 - t < 300) ∧
      d.power = true) :=
  ⟨c5_load_online_recency 600 _ [] _ "X" (by simp) (List.mem_singleton.mpr rfl)
      rfl,
   c5_load_online_recency 60 _ [] _ "X" (by simp) (List.mem_singleton.mpr rfl)
      rfl⟩

/-- C6: on a device known to the registry (with its durable row present,
as the write-through invariant guarantees), `set_name` with a
whitespace-only string stores and displays a null name, not the literal
whitespace; `set_name` with a non-blank string writes the stripped name
through to the durable `Device` row synchronously, so it is retrievable
after a simulated restart via `load_devices_from_db`. -/
theorem c6_set_name_normalization (now : Int) (s : SysState) (id : String)
    (d : RuntimeDevice) (row : DeviceRow) (w l : String)
    (hmem : memGet s.mem id = some d)
    (hrow : findDevice s.storeDevices id = some row)
    (hnd : (s.storeDevices.map (fun x => x.device_id)).Nodup)
    (hw : pyStrip w = "") (hl : pyStrip l ≠ "") :
    (set_name s id w).1 = .ok { d with friendly_name := some none } ∧
    memGet (set_name s id w).2.mem id
      = some { d with friendly_name := some none } ∧
    findDevice (set_name s id w).2.storeDevices id
      = some { row with friendly_name := none } ∧
    findDevice (set_name s id l).2.storeDevices id
      = some { row with friendly_name := some (pyStrip l) } ∧
    (∃ d2, memGet (load_devices_from_db now (set_name s id l).2.storeDevices
                    (set_name s id l).2.storeStates []) id = some d2 ∧
           d2.friendly_name = some (some (pyStrip l))) := by
  have hweq : set_name s id w
      = (.ok { d with friendly_name := some none },
         { s with
           storeDevices := updateDeviceRow s.storeDevices id
             (fun r => { r with friendly_name := none }),
           mem := memUpdate s.mem id
             (fun x => { x with friendly_name := some none }) }) := by
    simp only [set_name, get_device_known s id d hmem, hw, if_pos]
  have hleq : set_name s id l
      = (.ok { d with friendly_name := some (some (pyStrip l)) },
         { s with
           storeDevices := updateDeviceRow s.storeDevices id
             (fun r => { r with friendly_name := some (pyStrip l) }),
           mem := memUpdate s.mem id
             (fun x => { x with friendly_name := some (some (pyStrip l)) }) }) := by
    simp only [set_name, get_device_known s id d hmem, if_neg hl]
  have hrow_id : row.device_id = id := by
    have := List.find?_some hrow
    simpa using this
  have hfound_l : findDevice (set_name s id l).2.storeDevices id
      = some { row with friendly_name := some (pyStrip l) } := by
    rw [hleq]
    show findDevice (updateDeviceRow s.storeDevices id
        (fun r => { r with friendly_name := some (pyStrip l) })) id = _
    rw [findDevice_updateDeviceRow_self s.storeDevices id
        (fun r => { r with friendly_name := some (pyStrip l) })
        (fun _ => rfl), hrow]
    rfl
  refine ⟨by rw [hweq], ?_, ?_, hfound_l, ?_⟩
  · rw [hweq]
    show memGet (memUpdate s.mem id
        (fun x => { x with friendly_name := some none })) id = _
    rw [memGet_memUpdate_self s.mem id
        (fun x => { x with friendly_name := some none }) (fun _ => rfl), hmem]
    rfl
  · rw [hweq]
    show findDevice (updateDeviceRow s.storeDevices id
        (fun r => { r with friendly_name := none })) id = _
    rw [findDevice_updateDeviceRow_self s.storeDevices id
        (fun r => { r with friendly_name := none }) (fun _ => rfl), hrow]
    rfl
  · have hnd2 : ((set_name s id l).2.storeDevices.map
        (fun x => x.device_id)).Nodup := by
      rw [hleq]
      show ((updateDeviceRow s.storeDevices id
          (fun r => { r with friendly_name := some (pyStrip l) })).map
            (fun x => x.device_id)).Nodup
      rw [updateDeviceRow,
          map_key_updateFirst (fun x : DeviceRow => x.device_id)
            (fun r : DeviceRow => { r with friendly_name := some (pyStrip l) })
            (fun _ => rfl)]
      exact hnd
    refine ⟨_, memGet_load_found now _ _ [] _ id hnd2
      (List.mem_of_find?_eq_some hfound_l) hrow_id, rfl⟩

/-- Witness for C6 on the loaded demo state, with `"   "` and `"Lamp"`. -/
theorem c6_set_name_normalization_witness :
    (set_name demoSys "d1" "   ").1
      = .ok { device_id := "d1", friendly_name := some none, online := false,
              power := true, brightness := 70,
              color := ⟨some 1, some 2, some 3⟩, effect := "glow" } ∧
    memGet (set_name demoSys "d1" "   ").2.mem "d1"
      = some { device_id := "d1", friendly_name := some none, online := false,
               power := true, brightness := 70,
               color := ⟨some 1, some 2, some 3⟩, effect := "glow" } ∧
    findDevice (set_name demoSys "d1" "   ").2.storeDevices "d1"
      = some { demoRow with friendly_name := none } ∧
    findDevice (set_name demoSys "d1" "Lamp").2.storeDevices "d1"
      = some { demoRow with friendly_name := some (pyStrip "Lamp") } ∧
    (∃ d2, memGet (load_devices_from_db 700
          (set_name demoSys "d1" "Lamp").2.storeDevices
          (set_name demoSys "d1" "Lamp").2.storeStates []) "d1" = some d2 ∧
        d2.friendly_name = some (some (pyStrip "Lamp"))) :=
  c6_set_name_normalization 700 demoSys "d1"
    ⟨"d1", some none, false, true, 70, ⟨some 1, some 2, some 3⟩, "glow"⟩
    demoRow "   " "Lamp" rfl rfl (by decide) rfl (by decide)

/-- C3 counterexample: in the state loaded from the demo store, "d1" is
known to the registry with `online = false`; a state report carrying only
`brightness: 50` leaves it at brightness 50 but flips `online` to true, so
the online field does not retain its prior value as the claim states. -/
theorem c3_online_not_retained_counterexample :
    (memGet demoSys.mem "d1").map (fun d => d.online) = some false ∧
    (memGet (handleStateUpdate 600 ⟨some "d1", none, some 50, none, none⟩
        demoSys).mem "d1").map (fun d => d.online) = some true ∧
    (memGet (handleStateUpdate 600 ⟨some "d1", none, some 50, none, none⟩
        demoSys).mem "d1").map (fun d => d.brightness) = some 50 :=
  ⟨rfl, rfl, rfl⟩

/-- C3 (amended): for every device known to the registry, a state report
carrying only a brightness field sets that device's brightness and marks
it online; color, effect and power retain their prior values (online is
unconditionally set to true, so it is retained only when it was already
true). -/
theorem c3_brightness_report_amended (now : Int) (s : SysState)
    (id : String) (d : RuntimeDevice) (v : Int)
    (hid : id ≠ "") (h : memGet s.mem id = some d) :
    memGet (handleStateUpdate now ⟨some id, none, some v, none, none⟩ s).mem id
      = some { d with online := true, brightness := v } := by
  rw [handleStateUpdate_known now _ s id d rfl hid h]
  show memGet (memUpdate s.mem id
      (reportMem ⟨some id, none, some v, none, none⟩)) id = _
  rw [memGet_memUpdate_self _ id _ (reportMem_device_id _), h]
  rfl

/-- Witness for the amended C3 on the loaded demo state. -/
theorem c3_brightness_report_amended_witness :
    memGet (handleStateUpdate 600 ⟨some "d1", none, some 50, none, none⟩
        demoSys).mem "d1"
      = some { device_id := "d1", friendly_name := some none, online := true,
               power := true, brightness := 50,
               color := ⟨some 1, some 2, some 3⟩, effect := "glow" } :=
  c3_brightness_report_amended 600 demoSys "d1"
    ⟨"d1", some none, false, true, 70, ⟨some 1, some 2, some 3⟩, "glow"⟩
    50 (by decide) rfl

/-- C10: a state report whose color object carries only a subset of the
channels makes the durable `DeviceState` row keep its prior values for the
absent channels (per-channel merge), while the in-memory device's color is
replaced wholesale by the payload's color object, so absent channels
disappear from the in-memory view and the two views diverge. -/
theorem c10_partial_color_divergence (now : Int) (s : SysState)
    (id : String) (d : RuntimeDevice) (st : StateRow) (c : RColor)
    (hid : id ≠ "") (hmem : memGet s.mem id = some d)
    (hst : findState s.storeStates id = some st) :
    memGet (handleStateUpdate now ⟨some id, none, none, some c, none⟩ s).mem id
      = some { d with online := true, color := c } ∧
    findState (handleStateUpdate now
        ⟨some id, none, none, some c, none⟩ s).storeStates id
      = some { st with color_r := c.r.getD st.color_r,
                       color_g := c.g.getD st.color_g,
                       color_b := c.b.getD st.color_b } := by
  rw [handleStateUpdate_known now _ s id d rfl hid hmem]
  constructor
  · show memGet (memUpdate s.mem id
        (reportMem ⟨some id, none, none, some c, none⟩)) id = _
    rw [memGet_memUpdate_self _ id _ (reportMem_device_id _), hmem]
    rfl
  · show findState (updateStateRow s.storeStates id
        (reportStateRow ⟨some id, none, none, some c, none⟩)) id = _
    rw [findState_updateStateRow_self _ id _ (reportStateRow_device_id _), hst]
    rfl

/-- Witness for C10: a report with color `{r: 9}` on the demo state leaves
the durable row at `(9, 2, 3)` while the in-memory color loses its `g` and
`b` channels entirely. -/
theorem c10_partial_color_divergence_witness :
    memGet (handleStateUpdate 600
        ⟨some "d1", none, none, some ⟨some 9, none, none⟩, none⟩
        demoSys).mem "d1"
      = some { device_id := "d1", friendly_name := some none, online := true,
               power := true, brightness := 70,
               color := ⟨some 9, none, none⟩, effect := "glow" } ∧
    findState (handleStateUpdate 600
        ⟨some "d1", none, none, some ⟨some 9, none, none⟩, none⟩
        demoSys).storeStates "d1"
      = some ⟨"d1", 70, 9, 2, 3, "glow"⟩ :=
  c10_partial_color_divergence 600 demoSys "d1"
    ⟨"d1", some none, false, true, 70, ⟨some 1, some 2, some 3⟩, "glow"⟩
    demoState ⟨some 9, none, none⟩ (by decide) rfl rfl

/-- C1 counterexample: `_handle_device_announce` is, in source order, the
in-memory update followed by the durable write; at the intermediate point
after the in-memory phase of announcing "d1" to the empty system, the
registry already holds "d1" while no `Device` row exists yet — so the
durable write does not happen before the in-memory entry is created. -/
theorem c1_mem_written_first_counterexample :
    handleAnnounce 0 ⟨some "d1", none⟩ SysState.empty
      = announceStore 0 ⟨some "d1", none⟩ "d1"
          { SysState.empty with mem := announceMem "d1" SysState.empty.mem } ∧
    (memGet (announceMem "d1" SysState.empty.mem) "d1").isSome = true ∧
    (findDevice SysState.empty.storeDevices "d1").isSome = false :=
  ⟨rfl, rfl, rfl⟩

/-- C1 (amended): the invariant "a RuntimeDevice entry in the registry
implies a corresponding Device row in the store" is established by the
startup load and preserved by every operation — the announce handler does
perform the durable write in the same handler invocation, but it creates
the in-memory entry first and writes the durable row second, so the
invariant holds at handler completion rather than at in-memory-entry
creation time. -/
theorem c1_store_backed_invariant :
    (∀ (now : Int) (rows : List DeviceRow) (states : List StateRow),
      StoreBacked { mem := load_devices_from_db now rows states [],
                    storeDevices := rows, storeStates := states,
                    published := [] }) ∧
    (∀ (now : Int) (p : AnnouncePayload) (s : SysState),
      StoreBacked s → StoreBacked (handleAnnounce now p s)) ∧
    (∀ (now : Int) (p : ReportPayload) (s : SysState),
      StoreBacked s → StoreBacked (handleStateUpdate now p s)) ∧
    (∀ (s : SysState) (id : String) (r g b : Int),
      StoreBacked s → StoreBacked (set_color s id r g b).2) ∧
    (∀ (s : SysState) (id : String) (v : Int),
      StoreBacked s → StoreBacked (set_brightness s id v).2) ∧
    (∀ (s : SysState) (id e : String),
      StoreBacked s → StoreBacked (set_effect s id e).2) ∧
    (∀ (s : SysState) (id : String) (pw : Bool),
      StoreBacked s → StoreBacked (set_power s id pw).2) ∧
    (∀ (s : SysState) (id n : String),
      StoreBacked s → StoreBacked (set_name s id n).2) := by
  refine ⟨?load, ?ann, ?rep, ?c, ?b, ?e, ?p, ?n⟩
  case load =>
    intro now rows states j hj
    obtain ⟨d, hd⟩ := Option.isSome_iff_exists.mp hj
    have hmem := List.mem_of_find?_eq_some hd
    have hdj : d.device_id = j := by simpa using List.find?_some hd
    rcases mem_load now rows states [] d hmem with h0 | ⟨row, hrow, hdrow⟩
    · exact absurd h0 (List.not_mem_nil d)
    · have : row.device_id = j := by rw [← hdj, hdrow]; rfl
      show (findDevice rows j).isSome = true
      unfold findDevice
      rw [List.find?_isSome]
      exact ⟨row, hrow, by simp [this]⟩
  case ann =>
    intro now p s hs
    cases hp : p.device_id with
    | none => rw [handleAnnounce_noneid now p s hp]; exact hs
    | some id =>
        by_cases hid : id = ""
        · rw [handleAnnounce_emptyid now p s id hp hid]; exact hs
        · rw [handleAnnounce_eq now p s id hp hid]
          intro j hj
          rw [announceStore_mem] at hj
          have hj' : (memGet (announceMem id s.mem) j).isSome = true := hj
          rcases (isSome_memGet_announceMem s.mem id j).mp hj' with rfl | hpre
          · exact announceStore_isSome_self now p j _
          · exact announceStore_isSome_other now p id _ j (hs j hpre)
  case rep =>
    intro now p s hs
    cases hp : p.device_id with
    | none => rw [handleStateUpdate_noneid now p s hp]; exact hs
    | some id =>
        by_cases hid : id = ""
        · rw [handleStateUpdate_emptyid now p s id hp hid]; exact hs
        · cases hm : memGet s.mem id with
          | none => rw [handleStateUpdate_unknown now p s id hp hid hm]
                    exact hs
          | some d =>
              rw [handleStateUpdate_known now p s id d hp hid hm]
              intro j hj
              have hj' : (memGet (memUpdate s.mem id (reportMem p)) j).isSome
                  = true := hj
              rw [isSome_memGet_memUpdate s.mem id (reportMem p)
                  (reportMem_device_id p) j] at hj'
              show (findDevice (updateDeviceRow s.storeDevices id
                (fun r => { r with last_seen := some now })) j).isSome = true
              rw [isSome_findDevice_updateDeviceRow s.storeDevices id
                  (fun r => { r with last_seen := some now }) (fun _ => rfl) j]
              exact hs j hj'
  case c =>
    intro s id r g b hs
    cases h : memGet s.mem id with
    | none =>
        have : (set_color s id r g b).2 = s := by
          simp [set_color, get_device_unknown s id h]
        rw [this]; exact hs
    | some d =>
        have h2 : (set_color s id r g b).2
            = { s with
                mem := memUpdate s.mem id
                  (fun x => { x with color := ⟨some r, some g, some b⟩ }),
                published := s.published ++ [(id, Command.color r g b)] } := by
          simp only [set_color, get_device_known s id d h, send_command]
        rw [h2]
        intro j hj
        have hj' : (memGet (memUpdate s.mem id
            (fun x => { x with color := ⟨some r, some g, some b⟩ })) j).isSome
            = true := hj
        rw [isSome_memGet_memUpdate s.mem id
            (fun x => { x with color := ⟨some r, some g, some b⟩ })
            (fun _ => rfl) j] at hj'
        exact hs j hj'
  case b =>
    intro s id v hs
    cases h : memGet s.mem id with
    | none =>
        have : (set_brightness s id v).2 = s := by
          simp [set_brightness, get_device_unknown s id h]
        rw [this]; exact hs
    | some d =>
        have h2 : (set_brightness s id v).2
            = { s with
                mem := memUpdate s.mem id (fun x => { x with brightness := v }),
                published := s.published ++ [(id, Command.brightness v)] } := by
          simp only [set_brightness, get_device_known s id d h, send_command]
        rw [h2]
        intro j hj
        have hj' : (memGet (memUpdate s.mem id
            (fun x => { x with brightness := v })) j).isSome = true := hj
        rw [isSome_memGet_memUpdate s.mem id
            (fun x => { x with brightness := v }) (fun _ => rfl) j] at hj'
        exact hs j hj'
  case e =>
    intro s id e hs
    cases h : memGet s.mem id with
    | none =>
        have : (set_effect s id e).2 = s := by
          simp [set_effect, get_device_unknown s id h]
        rw [this]; exact hs
    | some d =>
        have h2 : (set_effect s id e).2
            = { s with
                mem := memUpdate s.mem id (fun x => { x with effect := e }),
                published := s.published ++ [(id, Command.effect e)] } := by
          simp only [set_effect, get_device_known s id d h, send_command]
        rw [h2]
        intro j hj
        have hj' : (memGet (memUpdate s.mem id
            (fun x => { x with effect := e })) j).isSome = true := hj
        rw [isSome_memGet_memUpdate s.mem id
            (fun x => { x with effect := e }) (fun _ => rfl) j] at hj'
        exact hs j hj'
  case p =>
    intro s id pw hs
    cases h : memGet s.mem id with
    | none =>
        have : (set_power s id pw).2 = s := by
          simp [set_power, get_device_unknown s id h]
        rw [this]; exact hs
    | some d =>
        have h2 : (set_power s id pw).2
            = { s with
                mem := memUpdate s.mem id (fun x => { x with power := pw }),
                published := s.published ++ [(id, Command.power pw)] } := by
          simp only [set_power, get_device_known s id d h, send_command]
        rw [h2]
        intro j hj
        have hj' : (memGet (memUpdate s.mem id
            (fun x => { x with power := pw })) j).isSome = true := hj
        rw [isSome_memGet_memUpdate s.mem id
            (fun x => { x with power := pw }) (fun _ => rfl) j] at hj'
        exact hs j hj'
  case n =>
    intro s id n hs
    cases h : memGet s.mem id with
    | none =>
        have : (set_name s id n).2 = s := by
          simp [set_name, get_device_unknown s id h]
        rw [this]; exact hs
    | some d =>
        have h2 : (set_name s id n).2
            = { s with
                storeDevices := updateDeviceRow s.storeDevices id
                  (fun r => { r with friendly_name := (
                    if pyStrip n = "" then none else some (pyStrip n)) }),
                mem := memUpdate s.mem id
                  (fun x => { x with friendly_name := (
                    some (if pyStrip n = "" then none
                          else some (pyStrip n))) }) } := by
          by_cases hn : pyStrip n = "" <;>
            simp only [set_name, get_device_known s id d h, hn, if_pos,
                       if_neg, ite_true, ite_false, not_false_iff]
        rw [h2]
        intro j hj
        have hj' : (memGet (memUpdate s.mem id
            (fun x => { x with friendly_name := (
              some (if pyStrip n = "" then none
                    else some (pyStrip n))) })) j).isSome = true := hj
        rw [isSome_memGet_memUpdate s.mem id
            (fun x => { x with friendly_name := (
              some (if pyStrip n = "" then none else some (pyStrip n))) })
            (fun _ => rfl) j] at hj'
        show (findDevice (updateDeviceRow s.storeDevices id
          (fun r => { r with friendly_name := (
            if pyStrip n = "" then none
            else some (pyStrip n)) })) j).isSome = true
        rw [isSome_findDevice_updateDeviceRow s.storeDevices id
            (fun r => { r with friendly_name := (
              if pyStrip n = "" then none else some (pyStrip n)) })
            (fun _ => rfl) j]
        exact hs j hj'

/-- Witness for the amended C1: the demo state (which is exactly the
startup load of the demo store) is store-backed, and announcing a new
device preserves that. -/
theorem c1_store_backed_invariant_witness :
    StoreBacked demoSys ∧
    StoreBacked (handleAnnounce 0 ⟨some "d2", none⟩ demoSys) :=
  have h : StoreBacked demoSys :=
    c1_store_backed_invariant.1 600 [demoRow] [demoState]
  ⟨h, c1_store_backed_invariant.2.1 0 ⟨some "d2", none⟩ demoSys h⟩

/-- C9 counterexample: after announcing "d1" to the empty system, the
object returned by `GET /devices` (and by `GET /devices/d1`) has no
`friendly_name` key at all, so not every returned device object contains
all of the listed fields. -/
theorem c9_missing_friendly_name_counterexample :
    (∃ d, d ∈ get_all_devices
        (handleAnnounce 0 ⟨some "d1", none⟩ SysState.empty)
      ∧ d.friendly_name = none) ∧
    api_get_device (handleAnnounce 0 ⟨some "d1", none⟩ SysState.empty) "d1"
      = .ok ⟨"d1", none, true, true, 100, RColor.white, "none"⟩ :=
  ⟨⟨⟨"d1", none, true, true, 100, RColor.white, "none"⟩,
    List.mem_singleton.mpr rfl, rfl⟩, rfl⟩

/-- C9 (amended): every device object built by the startup load contains
all of the fields, including a present `friendly_name` key and all three
color channels; a device that entered the registry via an announcement
has all the fields except `friendly_name`, whose key is absent until a
rename, and carries the default state. -/
theorem c9_device_fields_amended :
    (∀ (now : Int) (rows : List DeviceRow) (states : List StateRow)
       (d : RuntimeDevice),
      d ∈ get_all_devices { mem := load_devices_from_db now rows states [],
                            storeDevices := rows, storeStates := states,
                            published := [] } →
        d.friendly_name.isSome ∧ d.color.r.isSome ∧ d.color.g.isSome ∧
          d.color.b.isSome) ∧
    (∀ (now : Int) (ty : Option String) (s : SysState) (id : String),
      id ≠ "" → memGet s.mem id = none →
      memGet (handleAnnounce now ⟨some id, ty⟩ s).mem id
        = some ⟨id, none, true, true, 100, RColor.white, "none"⟩) := by
  constructor
  · intro now rows states d hd
    rcases mem_load now rows states [] d hd with h0 | ⟨row, hrow, rfl⟩
    · exact absurd h0 (List.not_mem_nil d)
    · exact ⟨rfl, rfl, rfl, rfl⟩
  · intro now ty s id hid h
    rw [handleAnnounce_mem_unknown now _ s id rfl hid h]
    exact memGet_memSet_self _ s.mem

/-- Witness for the amended C9 on the demo store and a fresh announce. -/
theorem c9_device_fields_amended_witness :
    ((⟨"d1", some none, false, true, 70, ⟨some 1, some 2, some 3⟩,
        "glow"⟩ : RuntimeDevice).friendly_name.isSome ∧
      (⟨some 1, some 2, some 3⟩ : RColor).r.isSome ∧
      (⟨some 1, some 2, some 3⟩ : RColor).g.isSome ∧
      (⟨some 1, some 2, some 3⟩ : RColor).b.isSome) ∧
    memGet (handleAnnounce 0 ⟨some "d2", none⟩ SysState.empty).mem "d2"
      = some ⟨"d2", none, true, true, 100, RColor.white, "none"⟩ :=
  ⟨c9_device_fields_amended.1 600 [demoRow] [demoState]
      ⟨"d1", some none, false, true, 70, ⟨some 1, some 2, some 3⟩, "glow"⟩
      (List.mem_singleton.mpr rfl),
   c9_device_fields_amended.2 0 none SysState.empty "d2" (by decide) rfl⟩

end Lumina
